import Mathlib

/-!
Shallow embedding of src/supabase/functions/payments-simple/index.ts
(the ShopEasy payment edge function): the Paystack verify endpoint, the
Paystack webhook endpoint, the verify retry loop, and the database
operations those handlers perform.

Modelling conventions:
* The three database tables touched by the handlers are lists of rows; the
  supabase calls used by the code (select-single by reference, update by
  reference, upsert with onConflict organization_id, update by id) are
  explicit list functions.
* JavaScript Date values are JsDate records (year, month 0-11, rest), where
  rest abstracts the day and time-of-day component, which no code path here
  inspects.  setMonth / setFullYear year carrying is modelled; day-overflow
  normalization is folded into rest.  All new Date() calls inside a single
  request are modelled as one timestamp parameter now (they differ by at
  most milliseconds in the source).
* createHmacSha512 (Web Crypto HMAC SHA-512 hex digest) enters the model as
  an abstract function parameter hmac : String -> String -> String applied
  to the secret and the raw body, exactly where the handler calls it.
* JSON.parse of the webhook body enters as a parameter
  parse : String -> Option WebhookEvent; a parse failure propagates to the
  top-level catch and yields the generic 500 response.
* A truthy Paystack envelope always carries a data object in practice; its
  absence would throw and surface as the generic 500.  No claim depends on
  that edge, so the envelope is modelled flat (ok / status / data fields).
* The network sleep between retry attempts is recorded as the list of
  milliseconds slept, so the retry schedule is observable.
-/

namespace PaymentsSimple

/-- JavaScript Date: year, month (0-11), and the rest of the fields (day and
time of day), which no code path in this function inspects. -/
structure JsDate where
  year : Int
  month : Nat
  rest : Nat
deriving DecidableEq

/-- endDate.setMonth(endDate.getMonth() + 1): one calendar month forward,
carrying into the year when month was 11 (index.ts line 353 and line 508). -/
def setMonthPlusOne (d : JsDate) : JsDate :=
  { d with year := d.year + ((d.month + 1) / 12 : Nat), month := (d.month + 1) % 12 }

/-- endDate.setFullYear(endDate.getFullYear() + 1): one calendar year forward
(index.ts line 356 and line 510). -/
def setYearPlusOne (d : JsDate) : JsDate :=
  { d with year := d.year + 1 }

/-- One row of the payments table: the columns written at initialization
(index.ts lines 172-182) plus the two columns written on confirmation
(lines 321-328 and 492-499). -/
structure PaymentRow where
  reference : String
  provider : String
  organization_id : String
  user_id : String
  plan_id : String
  billing_cycle : String
  amount : Int
  currency : String
  status : String
  transaction_id : Option String
  verified_at : Option JsDate
deriving DecidableEq

/-- One row of the subscriptions table: the columns of the upserted object
(index.ts lines 367-377 and 513-523). -/
structure SubscriptionRow where
  organization_id : String
  plan_id : String
  billing_cycle : String
  status : String
  start_date : JsDate
  end_date : JsDate
  amount : Int
  payment_reference : String
  provider : String
deriving DecidableEq

/-- The organization columns touched by the best-effort projection update
(index.ts lines 400-408). -/
structure OrgRow where
  id : String
  subscription_status : Option String
  subscription_plan : Option String
  subscription_end_date : Option JsDate
  trial_start_date : Option JsDate
deriving DecidableEq

/-- The persistent state the two handlers read and write. -/
structure DB where
  payments : List PaymentRow
  subscriptions : List SubscriptionRow
  organizations : List OrgRow
deriving DecidableEq

/-- The provider response observed by one verify attempt: response.ok, the
truthy top-level status field of the JSON envelope, and the fields of the
data object that the handler reads (index.ts lines 240-252). -/
structure GatewayEnvelope where
  ok : Bool
  status : Bool
  dataStatus : String
  dataId : Option String
deriving DecidableEq

/-- Break condition of the verify retry loop (index.ts line 255):
paystackResponse.ok, truthy paystackData.status, and
paystackData.data.status equal to the string success. -/
def isFullSuccess (r : GatewayEnvelope) : Bool :=
  r.ok && r.status && (r.dataStatus == "success")

/-- The while (attempts < 3) polling loop (index.ts lines 230-265).  resp n
is the provider response received by attempt n; attempts already made and
attempts remaining are kept explicit.  Returns the number of attempts
performed, the last response received, and the sleeps performed in
milliseconds.  On a full success the loop breaks at once; on the last
allowed attempt it exits without sleeping; otherwise it sleeps 2000 ms and
retries. -/
def verifyLoopFrom (resp : Nat → GatewayEnvelope) (attempts remaining : Nat) :
    Nat × GatewayEnvelope × List Nat :=
  match remaining with
  | 0 => (attempts + 1, resp (attempts + 1), [])
  | 1 => (attempts + 1, resp (attempts + 1), [])
  | n + 2 =>
    if isFullSuccess (resp (attempts + 1)) then
      (attempts + 1, resp (attempts + 1), [])
    else
      let rest := verifyLoopFrom resp (attempts + 1) (n + 1)
      (rest.1, rest.2.1, 2000 :: rest.2.2)

/-- The verify retry loop as entered by the handler: zero attempts made,
three remaining (index.ts lines 230-265). -/
def verifyLoop (resp : Nat → GatewayEnvelope) : Nat × GatewayEnvelope × List Nat :=
  verifyLoopFrom resp 0 3

/-- supabase.from payments .select .eq reference .single (index.ts lines
290-294 and 482-486): single() succeeds exactly when one row matches. -/
def findPayment (db : DB) (ref : String) : Option PaymentRow :=
  match db.payments.filter (fun p => p.reference == ref) with
  | [p] => some p
  | _ => none

/-- supabase.from payments .update of status, verified_at, transaction_id,
filtered only by .eq reference (index.ts lines 321-328 and 492-499): every
matching row has the three columns overwritten, with no condition on the
current stored status. -/
def updatePayment (db : DB) (ref newStatus : String) (now : JsDate)
    (txId : Option String) : DB :=
  { db with
    payments := db.payments.map (fun p =>
      if p.reference == ref then
        { p with status := newStatus, verified_at := some now, transaction_id := txId }
      else p) }

/-- supabase.from subscriptions .upsert with onConflict organization_id
(index.ts lines 380-384 and 513-523), at the list level: if a row with the
same organization_id exists it is fully replaced by the supplied row
(every supplied column is overwritten), otherwise the row is inserted.
The onConflict target is the unique key of the table. -/
def upsertRow (l : List SubscriptionRow) (row : SubscriptionRow) :
    List SubscriptionRow :=
  if l.any (fun s => s.organization_id == row.organization_id) then
    l.map (fun s => if s.organization_id == row.organization_id then row else s)
  else
    l ++ [row]

/-- The subscription upsert on the whole state. -/
def upsertSubscription (db : DB) (row : SubscriptionRow) : DB :=
  { db with subscriptions := upsertRow db.subscriptions row }

/-- supabase.from organizations .update .eq id (index.ts lines 400-408):
sets the denormalized projection columns and clears the trial start. -/
def updateOrganization (db : DB) (orgId planId : String) (endDate : JsDate) : DB :=
  { db with
    organizations := db.organizations.map (fun o =>
      if o.id == orgId then
        { o with
          subscription_status := some "active"
          subscription_plan := some planId
          subscription_end_date := some endDate
          trial_start_date := none }
      else o) }

/-- Billing-cycle branch of the verify path (index.ts lines 352-362):
monthly adds one month, yearly adds one year, and any other value logs a
console error (the returned Bool records that a warning was surfaced) and
falls back to one month. -/
def verifyEndDate (cycle : String) (startDate : JsDate) : JsDate × Bool :=
  if cycle = "monthly" then (setMonthPlusOne startDate, false)
  else if cycle = "yearly" then (setYearPlusOne startDate, false)
  else (setMonthPlusOne startDate, true)

/-- Billing-cycle branch of the webhook path (index.ts lines 507-511):
monthly adds one month and every other value falls into the else branch,
which adds one year; no warning is logged. -/
def webhookEndDate (cycle : String) (startDate : JsDate) : JsDate :=
  if cycle = "monthly" then setMonthPlusOne startDate
  else setYearPlusOne startDate

/-- The subscription object built from the payment record before the upsert
(index.ts lines 367-377 and 513-523). -/
def subscriptionData (payment : PaymentRow) (ref : String)
    (startDate endDate : JsDate) : SubscriptionRow :=
  { organization_id := payment.organization_id
    plan_id := payment.plan_id
    billing_cycle := payment.billing_cycle
    status := "active"
    start_date := startDate
    end_date := endDate
    amount := payment.amount
    payment_reference := ref
    provider := "paystack" }

/-- The observable part of a verify response: the HTTP status, the success
flag of the JSON body when the body carries one, and the status field
echoing the transaction status when present (the amount, reference and
paidAt echo fields carry no decision content and are omitted). -/
structure VerifyResponse where
  httpStatus : Nat
  success : Option Bool
  txStatus : Option String
deriving DecidableEq

/-- GET /paystack/verify/:reference (index.ts lines 204-438).  In order:
empty reference is a 400; a missing Paystack secret is a 500; the retry
loop runs and a failing final envelope (not ok, or falsy status) is a 400
returned before any database access; a reference with no single payment
row is a 404 returned before any write; otherwise the payment row is
overwritten with the terminal status derived from the transaction status,
and on a success transaction the subscription is recomputed from now and
upserted, followed by the best-effort organization update (orgUpdateFails
models that update erroring or throwing, which the code logs and
swallows); the response is the 200 success envelope echoing the
transaction status. -/
def handleVerify (db : DB) (reference : String) (secretKey : Option String)
    (resp : Nat → GatewayEnvelope) (now : JsDate) (orgUpdateFails : Bool) :
    DB × VerifyResponse :=
  if reference = "" then (db, ⟨400, none, none⟩)
  else
    match secretKey with
    | none => (db, ⟨500, none, none⟩)
    | some _ =>
      let last := (verifyLoop resp).2.1
      if !last.ok || !last.status then
        (db, ⟨400, some false, none⟩)
      else
        match findPayment db reference with
        | none => (db, ⟨404, some false, none⟩)
        | some payment =>
          let newStatus :=
            if last.dataStatus = "success" then "completed" else "failed"
          let db1 := updatePayment db reference newStatus now last.dataId
          if last.dataStatus = "success" then
            let endDate := (verifyEndDate payment.billing_cycle now).1
            let db2 :=
              upsertSubscription db1 (subscriptionData payment reference now endDate)
            let db3 :=
              if orgUpdateFails then db2
              else updateOrganization db2 payment.organization_id payment.plan_id endDate
            (db3, ⟨200, some true, some last.dataStatus⟩)
          else
            (db1, ⟨200, some true, some last.dataStatus⟩)

/-- The fields of a parsed webhook event that the handler reads: event.event,
event.data.reference, event.data.id (index.ts lines 471-477, 497). -/
structure WebhookEvent where
  event : String
  dataReference : String
  dataId : Option String
deriving DecidableEq

/-- The observable part of a webhook response: HTTP status and the success
flag when the body carries one. -/
structure WebhookResponse where
  httpStatus : Nat
  success : Option Bool
deriving DecidableEq

/-- Processing of a parsed, authenticated webhook event (index.ts lines
475-541).  Only the event type charge.success is acted on: the payment row
is looked up and, when found, overwritten to completed and the
subscription recomputed from now and upserted; a missing payment row is
only logged.  Every outcome is acknowledged with the 200 success body. -/
def processWebhookEvent (db : DB) (ev : WebhookEvent) (now : JsDate) :
    DB × WebhookResponse :=
  if ev.event = "charge.success" then
    match findPayment db ev.dataReference with
    | some payment =>
      let db1 := updatePayment db ev.dataReference "completed" now ev.dataId
      let endDate := webhookEndDate payment.billing_cycle now
      let db2 :=
        upsertSubscription db1 (subscriptionData payment ev.dataReference now endDate)
      (db2, ⟨200, some true⟩)
    | none => (db, ⟨200, some true⟩)
  else (db, ⟨200, some true⟩)

/-- POST /paystack/webhook (index.ts lines 443-542).  A missing Paystack
secret is a 500; then the HMAC SHA-512 hex digest of the raw body under
the secret is compared against the x-paystack-signature header (absent
header modelled as none) and any mismatch is a 401 returned before the
body is parsed or any database access happens; a body that fails to parse
propagates to the top-level catch (500); otherwise the event is processed
and acknowledged. -/
def handleWebhook (db : DB) (secretKey : Option String)
    (hmac : String → String → String) (signature : Option String)
    (body : String) (parse : String → Option WebhookEvent) (now : JsDate) :
    DB × WebhookResponse :=
  match secretKey with
  | none => (db, ⟨500, none⟩)
  | some secret =>
    if some (hmac secret body) ≠ signature then (db, ⟨401, none⟩)
    else
      match parse body with
      | none => (db, ⟨500, none⟩)
      | some ev => processWebhookEvent db ev now

/-! Concrete rows, states, envelopes and events used by the concrete runs in
the theorems below. -/

/-- A payment row for reference R1 that has already reached the terminal
status completed, with its transaction id recorded. -/
def pMC : PaymentRow :=
  { reference := "R1", provider := "paystack", organization_id := "O1",
    user_id := "U1", plan_id := "pro", billing_cycle := "monthly",
    amount := 5000, currency := "NGN", status := "completed",
    transaction_id := some "T1", verified_at := some ⟨2024, 0, 5⟩ }

/-- The same payment row as freshly created by initialization: pending, with
no transaction id and no verification timestamp. -/
def pPend : PaymentRow :=
  { pMC with status := "pending", transaction_id := none, verified_at := none }

/-- A pending payment row whose billing_cycle holds the out-of-enum value
weekly. -/
def pWeekly : PaymentRow :=
  { pPend with billing_cycle := "weekly" }

/-- The subscription row a first confirmation of R1 at time 2024-01/rest 5
would have produced: it already carries payment_reference R1. -/
def subExisting : SubscriptionRow :=
  { organization_id := "O1", plan_id := "pro", billing_cycle := "monthly",
    status := "active", start_date := ⟨2024, 0, 5⟩, end_date := ⟨2024, 1, 5⟩,
    amount := 5000, payment_reference := "R1", provider := "paystack" }

/-- An organization row still on trial. -/
def orgO1 : OrgRow :=
  { id := "O1", subscription_status := some "trial", subscription_plan := none,
    subscription_end_date := none, trial_start_date := some ⟨2024, 0, 1⟩ }

/-- State after a first confirmation of R1 has already been applied. -/
def dbSub : DB :=
  { payments := [pMC], subscriptions := [subExisting], organizations := [] }

/-- State with the completed payment row only. -/
def dbCompleted : DB :=
  { payments := [pMC], subscriptions := [], organizations := [] }

/-- State with the pending payment row only. -/
def dbPend : DB :=
  { payments := [pPend], subscriptions := [], organizations := [] }

/-- State with the pending weekly-cycle payment row only. -/
def dbWeekly : DB :=
  { payments := [pWeekly], subscriptions := [], organizations := [] }

/-- State with the completed payment row and the trial organization row. -/
def dbOrg : DB :=
  { payments := [pMC], subscriptions := [], organizations := [orgO1] }

/-- State with no rows at all. -/
def dbEmpty : DB :=
  { payments := [], subscriptions := [], organizations := [] }

/-- A provider response: HTTP ok, truthy envelope, transaction success. -/
def okSuccess : GatewayEnvelope :=
  { ok := true, status := true, dataStatus := "success", dataId := some "T1" }

/-- A provider response: HTTP ok, truthy envelope, transaction abandoned. -/
def okAbandoned : GatewayEnvelope :=
  { ok := true, status := true, dataStatus := "abandoned", dataId := some "T2" }

/-- A provider response: HTTP ok, truthy envelope, transaction definitively
failed. -/
def okDefFail : GatewayEnvelope :=
  { ok := true, status := true, dataStatus := "failed", dataId := some "T9" }

/-- A provider response whose envelope fails: HTTP not ok and falsy status. -/
def envFail : GatewayEnvelope :=
  { ok := false, status := false, dataStatus := "", dataId := none }

/-- A signed webhook event of type charge.success for reference R1. -/
def evSuccess : WebhookEvent :=
  { event := "charge.success", dataReference := "R1", dataId := some "T3" }

/-- A signed webhook event of the ignored type charge.failed. -/
def evFailedType : WebhookEvent :=
  { event := "charge.failed", dataReference := "R1", dataId := none }

/-! Helper lemmas: frame facts about the store operations, the behaviour of
the upsert and the update on the row they target, and reductions of the two
handlers under explicit branch hypotheses. -/

/-- updatePayment leaves the subscriptions table untouched. -/
@[simp] lemma updatePayment_subscriptions (db : DB) (ref st : String) (now : JsDate)
    (tx : Option String) : (updatePayment db ref st now tx).subscriptions = db.subscriptions := rfl

/-- updatePayment leaves the organizations table untouched. -/
@[simp] lemma updatePayment_organizations (db : DB) (ref st : String) (now : JsDate)
    (tx : Option String) : (updatePayment db ref st now tx).organizations = db.organizations := rfl

/-- upsertSubscription leaves the payments table untouched. -/
@[simp] lemma upsertSubscription_payments (db : DB) (row : SubscriptionRow) :
    (upsertSubscription db row).payments = db.payments := rfl

/-- upsertSubscription leaves the organizations table untouched. -/
@[simp] lemma upsertSubscription_organizations (db : DB) (row : SubscriptionRow) :
    (upsertSubscription db row).organizations = db.organizations := rfl

/-- upsertSubscription acts on the subscriptions list through upsertRow. -/
@[simp] lemma upsertSubscription_subscriptions (db : DB) (row : SubscriptionRow) :
    (upsertSubscription db row).subscriptions = upsertRow db.subscriptions row := rfl

/-- updateOrganization leaves the payments table untouched. -/
@[simp] lemma updateOrganization_payments (db : DB) (orgId planId : String)
    (endDate : JsDate) : (updateOrganization db orgId planId endDate).payments = db.payments := rfl

/-- updateOrganization leaves the subscriptions table untouched. -/
@[simp] lemma updateOrganization_subscriptions (db : DB) (orgId planId : String)
    (endDate : JsDate) :
    (updateOrganization db orgId planId endDate).subscriptions = db.subscriptions := rfl

/-- The subscription object built from a payment is keyed by that payment's
organization. -/
@[simp] lemma subscriptionData_organization_id (payment : PaymentRow) (ref : String)
    (s e : JsDate) : (subscriptionData payment ref s e).organization_id = payment.organization_id := rfl

/-- Filtering commutes with a map that does not change the predicate. -/
lemma filter_map_comm {α : Type} (pred : α → Bool) (f : α → α) (l : List α)
    (h : ∀ x, pred (f x) = pred x) :
    (l.map f).filter pred = (l.filter pred).map f := by
  induction l with
  | nil => rfl
  | cons a t ih =>
    simp only [List.map_cons, List.filter_cons, h a]
    cases hpa : pred a <;> simp [hpa, ih]

/-- Replacing every row that satisfies a predicate with one fixed satisfying
row, in a list holding at most one such row and at least one, leaves exactly
that fixed row satisfying the predicate. -/
lemma filter_replace_eq_single {α : Type} (pred : α → Bool) (row : α) (l : List α)
    (hrow : pred row = true) (hany : l.any pred = true) (hcount : l.countP pred ≤ 1) :
    (l.map (fun s => if pred s then row else s)).filter pred = [row] := by
  induction l with
  | nil => simp at hany
  | cons a t ih =>
    by_cases hpa : pred a = true
    · have hct : t.countP pred = 0 := by
        have hc := List.countP_cons pred a t
        rw [if_pos hpa] at hc
        omega
      have hnone : ∀ x ∈ t, ¬pred x = true := List.countP_eq_zero.1 hct
      have hrest : (t.map (fun s => if pred s then row else s)).filter pred = [] := by
        rw [List.filter_eq_nil_iff]
        intro b hb
        rcases List.mem_map.1 hb with ⟨x, hx, hfx⟩
        have hpx : ¬pred x = true := hnone x hx
        rw [if_neg hpx] at hfx
        rw [← hfx]
        exact hpx
      simp [hpa, hrow, hrest]
    · have hpaf : pred a = false := by simpa using hpa
      have hany2 : t.any pred = true := by
        rcases List.any_eq_true.1 hany with ⟨x, hx, hpx⟩
        rcases List.mem_cons.1 hx with h | h
        · subst h
          rw [hpaf] at hpx
          exact absurd hpx (by simp)
        · exact List.any_eq_true.2 ⟨x, h, hpx⟩
      have hcount2 : t.countP pred ≤ 1 := by
        have hc := List.countP_cons pred a t
        rw [if_neg hpa] at hc
        omega
      simp [hpaf, ih hany2 hcount2]

/-- After the upsert, exactly one subscription row carries the target
organization id, namely the upserted row itself, provided the table held at
most one row for that organization before (the unique key the onConflict
clause relies on). -/
lemma upsertRow_filter (l : List SubscriptionRow) (row : SubscriptionRow)
    (hcount : l.countP (fun s => s.organization_id == row.organization_id) ≤ 1) :
    (upsertRow l row).filter (fun s => s.organization_id == row.organization_id) = [row] := by
  unfold upsertRow
  by_cases hany : l.any (fun s => s.organization_id == row.organization_id) = true
  · rw [if_pos hany]
    exact filter_replace_eq_single _ row l (by simp) hany hcount
  · rw [if_neg hany]
    have hanyf : l.any (fun s => s.organization_id == row.organization_id) = false := by
      simpa using hany
    have hnil : l.filter (fun s => s.organization_id == row.organization_id) = [] := by
      rw [List.filter_eq_nil_iff]
      intro a ha
      have := List.any_eq_false.1 hanyf a ha
      simpa using this
    simp [List.filter_append, hnil]

/-- A successful single-row lookup by reference means the reference filter
returns exactly that row. -/
lemma findPayment_filter (db : DB) (ref : String) (p : PaymentRow)
    (h : findPayment db ref = some p) :
    db.payments.filter (fun q => q.reference == ref) = [p] := by
  unfold findPayment at h
  rcases hf : db.payments.filter (fun q => q.reference == ref) with _ | ⟨a, _ | _⟩ <;>
    rw [hf] at h <;> simp_all

/-- The looked-up row itself matches the reference filter. -/
lemma findPayment_matches (db : DB) (ref : String) (p : PaymentRow)
    (h : findPayment db ref = some p) : (p.reference == ref) = true := by
  have hf := findPayment_filter db ref p h
  have hmem : p ∈ db.payments.filter (fun q => q.reference == ref) := by
    rw [hf]; exact List.mem_singleton_self p
  exact (List.mem_filter.1 hmem).2

/-- The unconditional update overwrites the looked-up row's status,
verification timestamp and transaction id, and exactly that row matches the
reference afterwards. -/
lemma updatePayment_filter (db : DB) (ref st : String) (now : JsDate)
    (tx : Option String) (p : PaymentRow) (h : findPayment db ref = some p) :
    (updatePayment db ref st now tx).payments.filter (fun q => q.reference == ref)
      = [{ p with status := st, verified_at := some now, transaction_id := tx }] := by
  unfold updatePayment
  have hpres : ∀ q : PaymentRow,
      (((if q.reference == ref then
          { q with status := st, verified_at := some now, transaction_id := tx }
        else q) : PaymentRow).reference == ref) = (q.reference == ref) := by
    intro q
    by_cases hq : (q.reference == ref) = true
    · rw [if_pos hq]
    · rw [if_neg hq]
  rw [filter_map_comm _ _ _ hpres, findPayment_filter db ref p h]
  have hm := findPayment_matches db ref p h
  simp only [List.map_cons, List.map_nil, if_pos hm]

/-- Reduction of the verify handler when the final envelope is healthy and
the transaction status is success: the payment row is overwritten to
completed, the subscription recomputed from now and upserted, and the
organization updated unless that update fails. -/
lemma handleVerify_success (db : DB) (ref secret : String)
    (resp : Nat → GatewayEnvelope) (now : JsDate) (orgFails : Bool)
    (payment : PaymentRow)
    (href : ref ≠ "")
    (hok : (verifyLoop resp).2.1.ok = true)
    (hst : (verifyLoop resp).2.1.status = true)
    (hds : (verifyLoop resp).2.1.dataStatus = "success")
    (hfind : findPayment db ref = some payment) :
    handleVerify db ref (some secret) resp now orgFails =
      (if orgFails then
        upsertSubscription
          (updatePayment db ref "completed" now (verifyLoop resp).2.1.dataId)
          (subscriptionData payment ref now (verifyEndDate payment.billing_cycle now).1)
       else
        updateOrganization
          (upsertSubscription
            (updatePayment db ref "completed" now (verifyLoop resp).2.1.dataId)
            (subscriptionData payment ref now (verifyEndDate payment.billing_cycle now).1))
          payment.organization_id payment.plan_id
          (verifyEndDate payment.billing_cycle now).1,
       ⟨200, some true, some "success"⟩) := by
  simp only [handleVerify, if_neg href, hok, hst, hds, hfind, Bool.not_true,
    Bool.or_self, Bool.false_or, if_false, if_true, ite_true]
  rfl

/-- Reduction of the verify handler when the final envelope is healthy but
the transaction status is anything other than success: the payment row is
overwritten to failed, no subscription or organization write happens, and
the response is still the 200 success envelope echoing that status. -/
lemma handleVerify_nonsuccess (db : DB) (ref secret : String)
    (resp : Nat → GatewayEnvelope) (now : JsDate) (orgFails : Bool)
    (payment : PaymentRow)
    (href : ref ≠ "")
    (hok : (verifyLoop resp).2.1.ok = true)
    (hst : (verifyLoop resp).2.1.status = true)
    (hds : (verifyLoop resp).2.1.dataStatus ≠ "success")
    (hfind : findPayment db ref = some payment) :
    handleVerify db ref (some secret) resp now orgFails =
      (updatePayment db ref "failed" now (verifyLoop resp).2.1.dataId,
       ⟨200, some true, some (verifyLoop resp).2.1.dataStatus⟩) := by
  simp only [handleVerify, if_neg href, hok, hst, hds, hfind, Bool.not_true,
    Bool.or_self, Bool.false_or, if_false, if_true, ite_true, ite_false]
  simp [hds]

/-- Reduction of the verify handler when the final envelope fails (HTTP not
ok, or falsy status field): the 400 failure envelope is returned at once,
before any database access. -/
lemma handleVerify_envFail (db : DB) (ref secret : String)
    (resp : Nat → GatewayEnvelope) (now : JsDate) (orgFails : Bool)
    (href : ref ≠ "")
    (hfail : ((verifyLoop resp).2.1.ok && (verifyLoop resp).2.1.status) = false) :
    handleVerify db ref (some secret) resp now orgFails =
      (db, ⟨400, some false, none⟩) := by
  have hcond : (!(verifyLoop resp).2.1.ok || !(verifyLoop resp).2.1.status) = true := by
    rw [← Bool.not_and, hfail]
    rfl
  simp only [handleVerify, if_neg href, hcond, if_true, ite_true]

/-- Reduction of the verify handler when the envelope is healthy but no
single payment row matches the reference: the 404 envelope is returned
with the state untouched. -/
lemma handleVerify_notFound (db : DB) (ref secret : String)
    (resp : Nat → GatewayEnvelope) (now : JsDate) (orgFails : Bool)
    (href : ref ≠ "")
    (hok : (verifyLoop resp).2.1.ok = true)
    (hst : (verifyLoop resp).2.1.status = true)
    (hfind : findPayment db ref = none) :
    handleVerify db ref (some secret) resp now orgFails =
      (db, ⟨404, some false, none⟩) := by
  simp only [handleVerify, if_neg href, hok, hst, hfind, Bool.not_true,
    Bool.or_self, Bool.false_or, if_false, if_true, ite_true]
  simp

/-- Reduction of the event processing for an authenticated charge.success
event whose payment row exists: the row is overwritten to completed and
the subscription recomputed from now and upserted. -/
lemma processWebhookEvent_success (db : DB) (ev : WebhookEvent) (now : JsDate)
    (payment : PaymentRow)
    (hev : ev.event = "charge.success")
    (hfind : findPayment db ev.dataReference = some payment) :
    processWebhookEvent db ev now =
      (upsertSubscription
        (updatePayment db ev.dataReference "completed" now ev.dataId)
        (subscriptionData payment ev.dataReference now
          (webhookEndDate payment.billing_cycle now)),
       ⟨200, some true⟩) := by
  simp only [processWebhookEvent, hev, hfind, if_true, ite_true]

/-- Reduction of the webhook handler when the supplied signature is exactly
the digest of the body: the signature gate passes and the parsed event is
processed. -/
lemma handleWebhook_validSig (db : DB) (secret : String)
    (hmac : String → String → String) (body : String)
    (parse : String → Option WebhookEvent) (now : JsDate) (ev : WebhookEvent)
    (hparse : parse body = some ev) :
    handleWebhook db (some secret) hmac (some (hmac secret body)) body parse now =
      processWebhookEvent db ev now := by
  simp [handleWebhook, hparse]

/-- First component of the verify-path billing-cycle branch as a plain
conditional: monthly adds one month, yearly one year, anything else falls
back to one month. -/
lemma verifyEndDate_fst (c : String) (d : JsDate) :
    (verifyEndDate c d).1 =
      if c = "monthly" then setMonthPlusOne d
      else if c = "yearly" then setYearPlusOne d
      else setMonthPlusOne d := by
  unfold verifyEndDate
  split_ifs <;> rfl

/-- The verify path surfaces a warning exactly for out-of-enum cycles. -/
lemma verifyEndDate_snd (c : String) (d : JsDate) :
    (verifyEndDate c d).2 = true ↔ c ≠ "monthly" ∧ c ≠ "yearly" := by
  unfold verifyEndDate
  split_ifs with h1 h2
  · simp [h1]
  · simp [h1, h2]
  · simp [h1, h2]

/-! The claims. -/

/-- Claim C5 counterexample.  The claim states the polling loop stops
retrying immediately when an attempt returns a definitive status, terminal
success OR definitive non-success.  Here every attempt returns a healthy
envelope whose transaction status is the definitive non-success value
failed, so the claim predicts a single attempt; the code only breaks on
full success and therefore performs all 3 attempts. -/
theorem C5_counterexample :
    (verifyLoop (fun _ => okDefFail)).1 = 3 ∧ (verifyLoop (fun _ => okDefFail)).1 ≠ 1 := by
  decide

/-- Claim C5 (amended): the gateway verify polling loop makes at most 3
attempts with a fixed 2-second sleep after each unsuccessful attempt that
is not the last, stops retrying early ONLY when an attempt returns a full
success (envelope ok, truthy status field, transaction status success) -
a definitive non-success is retried like any other response until the
attempt bound is exhausted - and in every case returns the last response
received. -/
theorem C5_loop_behavior (resp : Nat → GatewayEnvelope) :
    verifyLoop resp =
      if isFullSuccess (resp 1) then (1, resp 1, [])
      else if isFullSuccess (resp 2) then (2, resp 2, [2000])
      else (3, resp 3, [2000, 2000]) := by
  show verifyLoopFrom resp 0 3 = _
  by_cases h1 : isFullSuccess (resp 1) = true
  · simp only [verifyLoopFrom, h1, if_true, if_pos]
  · have e3 : verifyLoopFrom resp 0 3 =
        if isFullSuccess (resp 1) then (1, resp 1, [])
        else
          let rest := verifyLoopFrom resp 1 2
          (rest.1, rest.2.1, 2000 :: rest.2.2) := rfl
    rw [e3, if_neg h1, if_neg h1]
    by_cases h2 : isFullSuccess (resp 2) = true
    · have e2 : verifyLoopFrom resp 1 2 = (2, resp 2, []) := by
        show (if isFullSuccess (resp 2) then (2, resp 2, [])
          else
            let rest := verifyLoopFrom resp 2 1
            (rest.1, rest.2.1, 2000 :: rest.2.2)) = _
        rw [if_pos h2]
      rw [e2, if_pos h2]
    · have e2 : verifyLoopFrom resp 1 2 = (3, resp 3, [2000]) := by
        show (if isFullSuccess (resp 2) then (2, resp 2, [])
          else
            let rest := verifyLoopFrom resp 2 1
            (rest.1, rest.2.1, 2000 :: rest.2.2)) = _
        rw [if_neg h2]
        rfl
      rw [e2, if_neg h2]

/-- Claim C6: a webhook request whose claimed signature differs from the
HMAC SHA-512 hex digest of the raw body under the shared secret is
answered 401 with no mutation at all: the event is never parsed or
processed, no payment row is updated and no subscription row is created or
changed (the returned state is exactly the input state). -/
theorem C6_bad_signature_rejected (db : DB) (secret : String)
    (hmac : String → String → String) (signature : Option String)
    (body : String) (parse : String → Option WebhookEvent) (now : JsDate)
    (h : signature ≠ some (hmac secret body)) :
    handleWebhook db (some secret) hmac signature body parse now =
      (db, ⟨401, none⟩) := by
  have h2 : some (hmac secret body) ≠ signature := Ne.symm h
  simp only [handleWebhook, if_pos h2]

/-- Claim C6 witness: a concrete tampered signature is rejected with 401 and
the state is returned unchanged. -/
theorem C6_bad_signature_rejected_witness :
    handleWebhook dbCompleted (some "sk") (fun _ _ => "good") (some "tampered") "b"
      (fun _ => some evSuccess) ⟨2024, 0, 1⟩ = (dbCompleted, ⟨401, none⟩) :=
  C6_bad_signature_rejected dbCompleted "sk" (fun _ _ => "good") (some "tampered") "b"
    (fun _ => some evSuccess) ⟨2024, 0, 1⟩ (by decide)

/-- Claim C7: a synchronous verify request whose reference has no payment
row is answered 404 before any write: the returned state is exactly the
input state, so no subscription row is created, even when the provider
envelope reports the transaction as successful (the transaction status in
the envelope is unconstrained here, and the witness uses a success one). -/
theorem C7_missing_payment_aborts (db : DB) (ref secret : String)
    (resp : Nat → GatewayEnvelope) (now : JsDate) (orgFails : Bool)
    (href : ref ≠ "")
    (hok : (verifyLoop resp).2.1.ok = true)
    (hst : (verifyLoop resp).2.1.status = true)
    (hfind : findPayment db ref = none) :
    handleVerify db ref (some secret) resp now orgFails =
      (db, ⟨404, some false, none⟩) :=
  handleVerify_notFound db ref secret resp now orgFails href hok hst hfind

/-- Claim C7 witness: verifying the unknown reference R2 against an empty
store, with the provider reporting success, returns 404 and the unchanged
state. -/
theorem C7_missing_payment_aborts_witness :
    handleVerify dbEmpty "R2" (some "sk") (fun _ => okSuccess) ⟨2024, 0, 1⟩ false =
      (dbEmpty, ⟨404, some false, none⟩) :=
  C7_missing_payment_aborts dbEmpty "R2" "sk" (fun _ => okSuccess) ⟨2024, 0, 1⟩ false
    (by decide) (by decide) (by decide) (by decide)

/-- Claim C8: a webhook request that passes signature verification and
parsing but whose event type is not charge.success is acknowledged with
200 and has no side effect: the returned state is exactly the input state,
so the payment ledger is untouched and no subscription row is created or
changed. -/
theorem C8_ignored_event_acknowledged (db : DB) (secret : String)
    (hmac : String → String → String) (body : String)
    (parse : String → Option WebhookEvent) (now : JsDate) (ev : WebhookEvent)
    (hparse : parse body = some ev)
    (hev : ev.event ≠ "charge.success") :
    handleWebhook db (some secret) hmac (some (hmac secret body)) body parse now =
      (db, ⟨200, some true⟩) := by
  rw [handleWebhook_validSig db secret hmac body parse now ev hparse]
  simp only [processWebhookEvent, if_neg hev, ite_false]

/-- Claim C8 witness: a correctly signed charge.failed event is acknowledged
with 200 and the state is returned unchanged. -/
theorem C8_ignored_event_acknowledged_witness :
    handleWebhook dbCompleted (some "sk") (fun _ _ => "h") (some "h") "b"
      (fun _ => some evFailedType) ⟨2024, 0, 1⟩ = (dbCompleted, ⟨200, some true⟩) :=
  C8_ignored_event_acknowledged dbCompleted "sk" (fun _ _ => "h") "b"
    (fun _ => some evFailedType) ⟨2024, 0, 1⟩ evFailedType (by decide) (by decide)

/-- Claim C1 counterexample.  The claim states that when the existing
subscription row of the organization already carries paymentReference equal
to the reference being processed, the upsert is a no-op returning the row
unchanged and never recomputing dates.  In dbSub the row for O1 already
carries payment_reference R1 with the first confirmation's dates, yet a
second confirmation of R1 at a later clock replaces the row with freshly
recomputed dates: the subscriptions table is not left unchanged. -/
theorem C1_counterexample :
    (handleVerify dbSub "R1" (some "sk") (fun _ => okSuccess) ⟨2024, 3, 7⟩ false).1.subscriptions
      = [subscriptionData pMC "R1" ⟨2024, 3, 7⟩ ⟨2024, 4, 7⟩]
    ∧ (handleVerify dbSub "R1" (some "sk") (fun _ => okSuccess) ⟨2024, 3, 7⟩ false).1.subscriptions
      ≠ dbSub.subscriptions := by
  decide

/-- Claim C1 (amended): every completed-payment confirmation, through the
synchronous verify path or the webhook path, performs an upsert keyed by
the payment's organization: afterwards exactly one subscription row exists
for that organization (given the at-most-one-row-per-organization unique
key held before), and that row is fully rebuilt from the current call's
clock - startDate is this run's now and endDate is recomputed from it.
There is no paymentReference short-circuit: a repeated confirmation of the
same reference replaces the row and its dates rather than returning it
unchanged, so the dates after run N are those of run N, not of the first
run. -/
theorem C1_upsert_replaces_per_org (db dbW : DB) (ref secret secretW body : String)
    (payment paymentW : PaymentRow) (resp : Nat → GatewayEnvelope)
    (now nowW : JsDate) (orgFails : Bool) (hmac : String → String → String)
    (ev : WebhookEvent) (parse : String → Option WebhookEvent)
    (href : ref ≠ "")
    (hok : (verifyLoop resp).2.1.ok = true)
    (hst : (verifyLoop resp).2.1.status = true)
    (hds : (verifyLoop resp).2.1.dataStatus = "success")
    (hfind : findPayment db ref = some payment)
    (hcount : db.subscriptions.countP
        (fun s => s.organization_id == payment.organization_id) ≤ 1)
    (hparse : parse body = some ev)
    (hev : ev.event = "charge.success")
    (hfindW : findPayment dbW ev.dataReference = some paymentW)
    (hcountW : dbW.subscriptions.countP
        (fun s => s.organization_id == paymentW.organization_id) ≤ 1) :
    (handleVerify db ref (some secret) resp now orgFails).1.subscriptions.filter
        (fun s => s.organization_id == payment.organization_id)
      = [subscriptionData payment ref now (verifyEndDate payment.billing_cycle now).1]
    ∧ (handleWebhook dbW (some secretW) hmac (some (hmac secretW body)) body
        parse nowW).1.subscriptions.filter
        (fun s => s.organization_id == paymentW.organization_id)
      = [subscriptionData paymentW ev.dataReference nowW
          (webhookEndDate paymentW.billing_cycle nowW)] := by
  constructor
  · rw [handleVerify_success db ref secret resp now orgFails payment href hok hst hds hfind]
    have h := upsertRow_filter db.subscriptions
        (subscriptionData payment ref now (verifyEndDate payment.billing_cycle now).1)
        (by simpa using hcount)
    cases orgFails with
    | false => simpa using h
    | true => simpa using h
  · rw [handleWebhook_validSig dbW secretW hmac body parse nowW ev hparse,
      processWebhookEvent_success dbW ev nowW paymentW hev hfindW]
    have h := upsertRow_filter dbW.subscriptions
        (subscriptionData paymentW ev.dataReference nowW
          (webhookEndDate paymentW.billing_cycle nowW))
        (by simpa using hcountW)
    simpa using h

/-- Claim C1 witness: both paths applied to the already-confirmed state
dbSub leave exactly one subscription row for O1, rebuilt from the new
clock. -/
theorem C1_upsert_replaces_per_org_witness :
    (handleVerify dbSub "R1" (some "sk") (fun _ => okSuccess) ⟨2024, 3, 7⟩
        false).1.subscriptions.filter
        (fun s => s.organization_id == pMC.organization_id)
      = [subscriptionData pMC "R1" ⟨2024, 3, 7⟩
          (verifyEndDate pMC.billing_cycle ⟨2024, 3, 7⟩).1]
    ∧ (handleWebhook dbSub (some "sk") (fun _ _ => "h") (some "h") "b"
        (fun _ => some evSuccess) ⟨2024, 3, 7⟩).1.subscriptions.filter
        (fun s => s.organization_id == pMC.organization_id)
      = [subscriptionData pMC evSuccess.dataReference ⟨2024, 3, 7⟩
          (webhookEndDate pMC.billing_cycle ⟨2024, 3, 7⟩)] :=
  C1_upsert_replaces_per_org dbSub dbSub "R1" "sk" "sk" "b" pMC pMC
    (fun _ => okSuccess) ⟨2024, 3, 7⟩ ⟨2024, 3, 7⟩ false (fun _ _ => "h")
    evSuccess (fun _ => some evSuccess) (by decide) (by decide) (by decide)
    (by decide) (by decide) (by decide) (by decide) (by decide) (by decide)
    (by decide)

/-- Claim C2 counterexample.  The claim states that once the stored status
is terminal, any further terminal-transition call is a no-op leaving the
record unchanged.  In dbCompleted the payment row for R1 is already
completed with transaction id T1, yet a verify call whose envelope is
healthy but whose transaction status is abandoned overwrites the row to
failed with a new transaction id: the stored record changes. -/
theorem C2_counterexample :
    (handleVerify dbCompleted "R1" (some "sk") (fun _ => okAbandoned)
        ⟨2024, 3, 7⟩ false).1.payments ≠ dbCompleted.payments
    ∧ ((handleVerify dbCompleted "R1" (some "sk") (fun _ => okAbandoned)
        ⟨2024, 3, 7⟩ false).1.payments.map (fun p => p.status)) = ["failed"]
    ∧ pMC.status = "completed" := by
  decide

/-- Claim C2 (amended): the ledger update is unconditional on the stored
status.  On the synchronous path, every verify call with a healthy final
envelope overwrites the matching payment row's status (completed exactly
when the transaction status is success, failed otherwise), verified_at and
transaction_id, whatever the stored status was - in particular a completed
row can later be flipped to failed.  The webhook charge.success path
likewise overwrites the row to completed unconditionally.  Neither path
returns an error for an already-terminal row. -/
theorem C2_overwrite_unconditional (db dbW : DB) (ref secret secretW body : String)
    (p pW : PaymentRow) (resp : Nat → GatewayEnvelope) (now nowW : JsDate)
    (orgFails : Bool) (hmac : String → String → String) (ev : WebhookEvent)
    (parse : String → Option WebhookEvent)
    (href : ref ≠ "")
    (hok : (verifyLoop resp).2.1.ok = true)
    (hst : (verifyLoop resp).2.1.status = true)
    (hfind : findPayment db ref = some p)
    (hparse : parse body = some ev)
    (hev : ev.event = "charge.success")
    (hfindW : findPayment dbW ev.dataReference = some pW) :
    (handleVerify db ref (some secret) resp now orgFails).1.payments.filter
        (fun q => q.reference == ref)
      = [{ p with
            status := if (verifyLoop resp).2.1.dataStatus = "success"
              then "completed" else "failed",
            verified_at := some now,
            transaction_id := (verifyLoop resp).2.1.dataId }]
    ∧ (handleWebhook dbW (some secretW) hmac (some (hmac secretW body)) body
        parse nowW).1.payments.filter
        (fun q => q.reference == ev.dataReference)
      = [{ pW with
            status := "completed",
            verified_at := some nowW,
            transaction_id := ev.dataId }] := by
  constructor
  · by_cases hds : (verifyLoop resp).2.1.dataStatus = "success"
    · rw [handleVerify_success db ref secret resp now orgFails p href hok hst hds hfind,
        if_pos hds]
      cases orgFails with
      | false =>
        simpa using updatePayment_filter db ref "completed" now
          (verifyLoop resp).2.1.dataId p hfind
      | true =>
        simpa using updatePayment_filter db ref "completed" now
          (verifyLoop resp).2.1.dataId p hfind
    · rw [handleVerify_nonsuccess db ref secret resp now orgFails p href hok hst hds hfind,
        if_neg hds]
      simpa using updatePayment_filter db ref "failed" now
        (verifyLoop resp).2.1.dataId p hfind
  · rw [handleWebhook_validSig dbW secretW hmac body parse nowW ev hparse,
      processWebhookEvent_success dbW ev nowW pW hev hfindW]
    simpa using updatePayment_filter dbW ev.dataReference "completed" nowW
      ev.dataId pW hfindW

/-- Claim C2 witness: on the already-completed row, a verify call reporting
an abandoned transaction flips it to failed with a fresh transaction id,
and a webhook charge.success overwrites it to completed with the event's
transaction id. -/
theorem C2_overwrite_unconditional_witness :
    (handleVerify dbCompleted "R1" (some "sk") (fun _ => okAbandoned)
        ⟨2024, 3, 7⟩ false).1.payments.filter (fun q => q.reference == "R1")
      = [{ pMC with
            status := "failed",
            verified_at := some ⟨2024, 3, 7⟩,
            transaction_id := some "T2" }]
    ∧ (handleWebhook dbCompleted (some "sk") (fun _ _ => "h") (some "h") "b"
        (fun _ => some evSuccess) ⟨2024, 3, 7⟩).1.payments.filter
        (fun q => q.reference == evSuccess.dataReference)
      = [{ pMC with
            status := "completed",
            verified_at := some ⟨2024, 3, 7⟩,
            transaction_id := some "T3" }] :=
  C2_overwrite_unconditional dbCompleted dbCompleted "R1" "sk" "sk" "b" pMC pMC
    (fun _ => okAbandoned) ⟨2024, 3, 7⟩ ⟨2024, 3, 7⟩ false (fun _ _ => "h")
    evSuccess (fun _ => some evSuccess) (by decide) (by decide) (by decide)
    (by decide) (by decide) (by decide) (by decide)

/-- Claim C3 counterexample.  The claim states that on every confirmation
path an unknown billingCycle value defaults to monthly (one calendar
month) with a surfaced warning.  On the webhook path a payment whose
billing_cycle is weekly falls into the else branch and gets one calendar
year, not one month, and no warning is surfaced. -/
theorem C3_counterexample :
    ((handleWebhook dbWeekly (some "sk") (fun _ _ => "h") (some "h") "b"
        (fun _ => some evSuccess) ⟨2024, 5, 0⟩).1.subscriptions.map
        (fun s => s.end_date)) = [⟨2025, 5, 0⟩]
    ∧ setMonthPlusOne ⟨2024, 5, 0⟩ = ⟨2024, 6, 0⟩
    ∧ (⟨2025, 5, 0⟩ : JsDate) ≠ ⟨2024, 6, 0⟩ := by
  decide

/-- Claim C3 (amended): both confirmation paths compute the subscription
period from startDate = now.  On the synchronous verify path, monthly adds
exactly one calendar month, yearly exactly one calendar year, and any
other billingCycle value defaults to monthly with a surfaced warning,
without blocking activation (the response is still the 200 success
envelope).  On the webhook path, monthly adds one calendar month and every
other value - yearly but also any unknown value - adds one calendar year,
with no warning. -/
theorem C3_end_date_by_path (db dbW : DB) (ref secret secretW body : String)
    (payment paymentW : PaymentRow) (resp : Nat → GatewayEnvelope)
    (now nowW : JsDate) (orgFails : Bool) (hmac : String → String → String)
    (ev : WebhookEvent) (parse : String → Option WebhookEvent)
    (href : ref ≠ "")
    (hok : (verifyLoop resp).2.1.ok = true)
    (hst : (verifyLoop resp).2.1.status = true)
    (hds : (verifyLoop resp).2.1.dataStatus = "success")
    (hfind : findPayment db ref = some payment)
    (hcount : db.subscriptions.countP
        (fun s => s.organization_id == payment.organization_id) ≤ 1)
    (hparse : parse body = some ev)
    (hev : ev.event = "charge.success")
    (hfindW : findPayment dbW ev.dataReference = some paymentW)
    (hcountW : dbW.subscriptions.countP
        (fun s => s.organization_id == paymentW.organization_id) ≤ 1) :
    ((handleVerify db ref (some secret) resp now orgFails).1.subscriptions.filter
        (fun s => s.organization_id == payment.organization_id)).map
        (fun s => (s.start_date, s.end_date))
      = [(now,
          if payment.billing_cycle = "monthly" then setMonthPlusOne now
          else if payment.billing_cycle = "yearly" then setYearPlusOne now
          else setMonthPlusOne now)]
    ∧ ((verifyEndDate payment.billing_cycle now).2 = true ↔
        payment.billing_cycle ≠ "monthly" ∧ payment.billing_cycle ≠ "yearly")
    ∧ (handleVerify db ref (some secret) resp now orgFails).2
      = ⟨200, some true, some "success"⟩
    ∧ ((handleWebhook dbW (some secretW) hmac (some (hmac secretW body)) body
        parse nowW).1.subscriptions.filter
        (fun s => s.organization_id == paymentW.organization_id)).map
        (fun s => (s.start_date, s.end_date))
      = [(nowW,
          if paymentW.billing_cycle = "monthly" then setMonthPlusOne nowW
          else setYearPlusOne nowW)] := by
  refine ⟨?_, verifyEndDate_snd payment.billing_cycle now, ?_, ?_⟩
  · rw [handleVerify_success db ref secret resp now orgFails payment href hok hst hds hfind]
    have h := upsertRow_filter db.subscriptions
        (subscriptionData payment ref now (verifyEndDate payment.billing_cycle now).1)
        (by simpa using hcount)
    have h2 : (upsertRow db.subscriptions
        (subscriptionData payment ref now
          (verifyEndDate payment.billing_cycle now).1)).filter
        (fun s => s.organization_id == payment.organization_id)
      = [subscriptionData payment ref now
          (verifyEndDate payment.billing_cycle now).1] := by simpa using h
    cases orgFails with
    | false =>
      simp only [Bool.false_eq_true, if_false, ite_false,
        updateOrganization_subscriptions, upsertSubscription_subscriptions,
        updatePayment_subscriptions]
      rw [h2]
      simp [subscriptionData, verifyEndDate_fst]
    | true =>
      simp only [if_true, ite_true, upsertSubscription_subscriptions,
        updatePayment_subscriptions]
      rw [h2]
      simp [subscriptionData, verifyEndDate_fst]
  · rw [handleVerify_success db ref secret resp now orgFails payment href hok hst hds hfind]
  · rw [handleWebhook_validSig dbW secretW hmac body parse nowW ev hparse,
      processWebhookEvent_success dbW ev nowW paymentW hev hfindW]
    have h := upsertRow_filter dbW.subscriptions
        (subscriptionData paymentW ev.dataReference nowW
          (webhookEndDate paymentW.billing_cycle nowW))
        (by simpa using hcountW)
    have h2 : (upsertRow dbW.subscriptions
        (subscriptionData paymentW ev.dataReference nowW
          (webhookEndDate paymentW.billing_cycle nowW))).filter
        (fun s => s.organization_id == paymentW.organization_id)
      = [subscriptionData paymentW ev.dataReference nowW
          (webhookEndDate paymentW.billing_cycle nowW)] := by simpa using h
    simp only [upsertSubscription_subscriptions, updatePayment_subscriptions]
    rw [h2]
    simp [subscriptionData, webhookEndDate]

/-- Claim C3 witness: confirming the weekly-cycle payment through the verify
path yields one month added with the warning surfaced, and through the
webhook path one year added. -/
theorem C3_end_date_by_path_witness :
    ((handleVerify dbWeekly "R1" (some "sk") (fun _ => okSuccess) ⟨2024, 3, 7⟩
        false).1.subscriptions.filter
        (fun s => s.organization_id == pWeekly.organization_id)).map
        (fun s => (s.start_date, s.end_date))
      = [(⟨2024, 3, 7⟩,
          if pWeekly.billing_cycle = "monthly" then setMonthPlusOne ⟨2024, 3, 7⟩
          else if pWeekly.billing_cycle = "yearly" then setYearPlusOne ⟨2024, 3, 7⟩
          else setMonthPlusOne ⟨2024, 3, 7⟩)]
    ∧ ((verifyEndDate pWeekly.billing_cycle ⟨2024, 3, 7⟩).2 = true ↔
        pWeekly.billing_cycle ≠ "monthly" ∧ pWeekly.billing_cycle ≠ "yearly")
    ∧ (handleVerify dbWeekly "R1" (some "sk") (fun _ => okSuccess) ⟨2024, 3, 7⟩
        false).2 = ⟨200, some true, some "success"⟩
    ∧ ((handleWebhook dbWeekly (some "sk") (fun _ _ => "h") (some "h") "b"
        (fun _ => some evSuccess) ⟨2024, 3, 7⟩).1.subscriptions.filter
        (fun s => s.organization_id == pWeekly.organization_id)).map
        (fun s => (s.start_date, s.end_date))
      = [(⟨2024, 3, 7⟩,
          if pWeekly.billing_cycle = "monthly" then setMonthPlusOne ⟨2024, 3, 7⟩
          else setYearPlusOne ⟨2024, 3, 7⟩)] :=
  C3_end_date_by_path dbWeekly dbWeekly "R1" "sk" "sk" "b" pWeekly pWeekly
    (fun _ => okSuccess) ⟨2024, 3, 7⟩ ⟨2024, 3, 7⟩ false (fun _ _ => "h")
    evSuccess (fun _ => some evSuccess) (by decide) (by decide) (by decide)
    (by decide) (by decide) (by decide) (by decide) (by decide) (by decide)
    (by decide)

/-- Claim C4 counterexample.  The claim states that when gateway
verification ends in failure the Reconciler still transitions the payment
row to failed before returning its error response.  With every attempt
returning a failed envelope, the handler returns its 400 error with the
state exactly unchanged: the payment row for R1 is still pending, not
failed. -/
theorem C4_counterexample :
    (handleVerify dbPend "R1" (some "sk") (fun _ => envFail) ⟨2024, 3, 7⟩ false).1
      = dbPend
    ∧ ((handleVerify dbPend "R1" (some "sk") (fun _ => envFail) ⟨2024, 3, 7⟩
        false).1.payments.map (fun p => p.status)) = ["pending"]
    ∧ (handleVerify dbPend "R1" (some "sk") (fun _ => envFail) ⟨2024, 3, 7⟩ false).2
      = ⟨400, some false, none⟩ := by
  decide

/-- Claim C4 (amended): when the synchronous path's gateway verification
ends in envelope failure (provider not ok, or falsy envelope status, after
the retry bound), the endpoint returns its 400 error response without any
ledger write: the payment row keeps its stored status, including pending.
The terminal failed transition is committed only in the other failure
shape, a healthy envelope whose transaction status is not success. -/
theorem C4_envelope_failure_no_ledger_write (db : DB) (ref secret : String)
    (respFail respOk : Nat → GatewayEnvelope) (now : JsDate) (orgFails : Bool)
    (p : PaymentRow)
    (href : ref ≠ "")
    (hfail : ((verifyLoop respFail).2.1.ok && (verifyLoop respFail).2.1.status) = false)
    (hok : (verifyLoop respOk).2.1.ok = true)
    (hst : (verifyLoop respOk).2.1.status = true)
    (hds : (verifyLoop respOk).2.1.dataStatus ≠ "success")
    (hfind : findPayment db ref = some p) :
    handleVerify db ref (some secret) respFail now orgFails =
      (db, ⟨400, some false, none⟩)
    ∧ (handleVerify db ref (some secret) respOk now orgFails).1.payments.filter
        (fun q => q.reference == ref)
      = [{ p with
            status := "failed",
            verified_at := some now,
            transaction_id := (verifyLoop respOk).2.1.dataId }] := by
  refine ⟨handleVerify_envFail db ref secret respFail now orgFails href hfail, ?_⟩
  rw [handleVerify_nonsuccess db ref secret respOk now orgFails p href hok hst hds hfind]
  simpa using updatePayment_filter db ref "failed" now
    (verifyLoop respOk).2.1.dataId p hfind

/-- Claim C4 witness: the failing envelope leaves the pending row pending
and returns 400; the healthy envelope with an abandoned transaction marks
the row failed. -/
theorem C4_envelope_failure_no_ledger_write_witness :
    handleVerify dbPend "R1" (some "sk") (fun _ => envFail) ⟨2024, 3, 7⟩ false =
      (dbPend, ⟨400, some false, none⟩)
    ∧ (handleVerify dbPend "R1" (some "sk") (fun _ => okAbandoned) ⟨2024, 3, 7⟩
        false).1.payments.filter (fun q => q.reference == "R1")
      = [{ pPend with
            status := "failed",
            verified_at := some ⟨2024, 3, 7⟩,
            transaction_id := some "T2" }] :=
  C4_envelope_failure_no_ledger_write dbPend "R1" "sk" (fun _ => envFail)
    (fun _ => okAbandoned) ⟨2024, 3, 7⟩ false pPend (by decide) (by decide)
    (by decide) (by decide) (by decide) (by decide)

/-- Claim C9: when the organization-projection update fails or throws after
the subscription upsert has succeeded on the synchronous path (modelled by
orgUpdateFails = true, covering both the logged error result and the
caught exception), the endpoint still returns the 200 success envelope,
the upserted subscription row remains committed for the payment's
organization, and the organizations table is simply left unchanged (stale)
- nothing is rolled back or retried. -/
theorem C9_org_sync_failure_swallowed (db : DB) (ref secret : String)
    (resp : Nat → GatewayEnvelope) (now : JsDate) (payment : PaymentRow)
    (href : ref ≠ "")
    (hok : (verifyLoop resp).2.1.ok = true)
    (hst : (verifyLoop resp).2.1.status = true)
    (hds : (verifyLoop resp).2.1.dataStatus = "success")
    (hfind : findPayment db ref = some payment)
    (hcount : db.subscriptions.countP
        (fun s => s.organization_id == payment.organization_id) ≤ 1) :
    (handleVerify db ref (some secret) resp now true).2
      = ⟨200, some true, some "success"⟩
    ∧ (handleVerify db ref (some secret) resp now true).1.subscriptions.filter
        (fun s => s.organization_id == payment.organization_id)
      = [subscriptionData payment ref now (verifyEndDate payment.billing_cycle now).1]
    ∧ (handleVerify db ref (some secret) resp now true).1.organizations
      = db.organizations := by
  rw [handleVerify_success db ref secret resp now true payment href hok hst hds hfind]
  have h := upsertRow_filter db.subscriptions
      (subscriptionData payment ref now (verifyEndDate payment.billing_cycle now).1)
      (by simpa using hcount)
  refine ⟨rfl, by simpa using h, rfl⟩

/-- Claim C9 witness: with the projection update failing, the trial
organization row is left untouched while the subscription is committed and
success returned. -/
theorem C9_org_sync_failure_swallowed_witness :
    (handleVerify dbOrg "R1" (some "sk") (fun _ => okSuccess) ⟨2024, 3, 7⟩ true).2
      = ⟨200, some true, some "success"⟩
    ∧ (handleVerify dbOrg "R1" (some "sk") (fun _ => okSuccess) ⟨2024, 3, 7⟩
        true).1.subscriptions.filter
        (fun s => s.organization_id == pMC.organization_id)
      = [subscriptionData pMC "R1" ⟨2024, 3, 7⟩
          (verifyEndDate pMC.billing_cycle ⟨2024, 3, 7⟩).1]
    ∧ (handleVerify dbOrg "R1" (some "sk") (fun _ => okSuccess) ⟨2024, 3, 7⟩
        true).1.organizations = dbOrg.organizations :=
  C9_org_sync_failure_swallowed dbOrg "R1" "sk" (fun _ => okSuccess)
    ⟨2024, 3, 7⟩ pMC (by decide) (by decide) (by decide) (by decide)
    (by decide) (by decide)

/-- Claim C10: on the synchronous verify path, a healthy envelope (HTTP ok
and truthy status field) whose transaction status is not success marks the
ledger row failed yet still answers HTTP 200 with success true and the
non-success transaction status in the status field; and an envelope
failure is what produces the HTTP 400 response with success false, so the
payment outcome is carried by the status field, not the success flag. -/
theorem C10_ok_envelope_nonsuccess_http200 (db : DB) (ref secret : String)
    (resp respF : Nat → GatewayEnvelope) (now : JsDate) (orgFails : Bool)
    (p : PaymentRow)
    (href : ref ≠ "")
    (hok : (verifyLoop resp).2.1.ok = true)
    (hst : (verifyLoop resp).2.1.status = true)
    (hds : (verifyLoop resp).2.1.dataStatus ≠ "success")
    (hfind : findPayment db ref = some p)
    (hfailF : ((verifyLoop respF).2.1.ok && (verifyLoop respF).2.1.status) = false) :
    (handleVerify db ref (some secret) resp now orgFails).1.payments.filter
        (fun q => q.reference == ref)
      = [{ p with
            status := "failed",
            verified_at := some now,
            transaction_id := (verifyLoop resp).2.1.dataId }]
    ∧ (handleVerify db ref (some secret) resp now orgFails).2
      = ⟨200, some true, some (verifyLoop resp).2.1.dataStatus⟩
    ∧ handleVerify db ref (some secret) respF now orgFails =
        (db, ⟨400, some false, none⟩) := by
  refine ⟨?_, ?_, handleVerify_envFail db ref secret respF now orgFails href hfailF⟩
  · rw [handleVerify_nonsuccess db ref secret resp now orgFails p href hok hst hds hfind]
    simpa using updatePayment_filter db ref "failed" now
      (verifyLoop resp).2.1.dataId p hfind
  · rw [handleVerify_nonsuccess db ref secret resp now orgFails p href hok hst hds hfind]

/-- Claim C10 witness: the abandoned transaction yields a failed ledger row
but a 200 response carrying success true and status abandoned; the failing
envelope yields the 400 failure response. -/
theorem C10_ok_envelope_nonsuccess_http200_witness :
    (handleVerify dbCompleted "R1" (some "sk") (fun _ => okAbandoned)
        ⟨2024, 3, 7⟩ false).1.payments.filter (fun q => q.reference == "R1")
      = [{ pMC with
            status := "failed",
            verified_at := some ⟨2024, 3, 7⟩,
            transaction_id := some "T2" }]
    ∧ (handleVerify dbCompleted "R1" (some "sk") (fun _ => okAbandoned)
        ⟨2024, 3, 7⟩ false).2 = ⟨200, some true, some "abandoned"⟩
    ∧ handleVerify dbCompleted "R1" (some "sk") (fun _ => envFail) ⟨2024, 3, 7⟩
        false = (dbCompleted, ⟨400, some false, none⟩) :=
  C10_ok_envelope_nonsuccess_http200 dbCompleted "R1" "sk" (fun _ => okAbandoned)
    (fun _ => envFail) ⟨2024, 3, 7⟩ false pMC (by decide) (by decide) (by decide)
    (by decide) (by decide) (by decide)

end PaymentsSimple
